import Mathlib

/-!
Verification of the PERT distribution wrapper
(`tensorflow_probability/python/distributions/pert.py`).

The file shallowly embeds the PERT-specific code: the constructor's
derivation of the Beta concentration parameters and the affine transform
parameters, the read-only property accessors, the analytic overrides
(`_mode`, `_variance`, `_stddev`, `_survivial_function`), and the
gating structure of `_parameter_control_dependencies`.

Numeric tensors are modelled as elements of a field (instantiated at
`ℚ` for executable statements and at `ℝ` where a square root is
needed); the external collaborators (the Beta cdf and `tf.sqrt`) are
modelled as explicit function parameters, matching the spec's view of
them as external contracts.
-/

namespace PERTSpec

/-- State of a constructed `PERT` object: the four converted parameter
tensors (`self._min`, `self._mod`, `self._max`, `self._smoothness`) and
the derived quantities (`self._concentration1`, `self._concentration0`,
`self._scale`) computed in `PERT.__init__`. -/
structure PERT (α : Type) where
  _min : α
  _mod : α
  _max : α
  _smoothness : α
  _concentration1 : α
  _concentration0 : α
  _scale : α

/-- Shallow embedding of `PERT.__init__` after dtype coercion: the four
inputs are stored, and the derived quantities are computed exactly as in
the source (`1. + self._smoothness * (self._mod - self._min) /
(self._max - self._min)`, etc.; the affine shift is `self._min`). -/
def PERT.init {α : Type} [Field α] (mini mode maxi smoothness : α) : PERT α :=
  { _min := mini
    _mod := mode
    _max := maxi
    _smoothness := smoothness
    _concentration1 := 1 + smoothness * (mode - mini) / (maxi - mini)
    _concentration0 := 1 + smoothness * (maxi - mode) / (maxi - mini)
    _scale := maxi - mini }

/-- Property `minimum`: returns `self._min`. -/
def PERT.minimum {α : Type} (p : PERT α) : α := p._min

/-- Property `maximum`: returns `self._max`. -/
def PERT.maximum {α : Type} (p : PERT α) : α := p._max

/-- Property `smoothness`: returns `self._smoothness`. -/
def PERT.smoothness {α : Type} (p : PERT α) : α := p._smoothness

/-- Property `loc`: returns `self._min`. -/
def PERT.loc {α : Type} (p : PERT α) : α := p._min

/-- Property `scale`: returns `self._scale`. -/
def PERT.scale {α : Type} (p : PERT α) : α := p._scale

/-- Property `concentration0`: returns `self._concentration0`. -/
def PERT.concentration0 {α : Type} (p : PERT α) : α := p._concentration0

/-- Property `concentration1`: returns `self._concentration1`. -/
def PERT.concentration1 {α : Type} (p : PERT α) : α := p._concentration1

/-- The `_mode` override: returns the stored `self._mod` directly. -/
def PERT.mode {α : Type} (p : PERT α) : α := p._mod

/-- Modelled from the spec: the cdf of the composed distribution
("affine transform applied to Beta") lives in the framework's
`TransformedDistribution`, which is not under `src/`.  Per the spec's
collaborator contract, the affine transform `x ↦ shift + scale * x`
composes the query with the underlying Beta distribution's cdf
(here the explicit parameter `betaCdf`, a function of the two
concentrations and the point in `[0,1]`). -/
def PERT.cdf {α : Type} [Field α] (betaCdf : α → α → α → α) (p : PERT α)
    (value : α) : α :=
  betaCdf p._concentration1 p._concentration0 ((value - p._min) / p._scale)

/-- The `_survivial_function` override: `1. - self.cdf(value)`. -/
def PERT.survivalFunction {α : Type} [Field α] (betaCdf : α → α → α → α)
    (p : PERT α) (value : α) : α :=
  1 - p.cdf betaCdf value

/-- The `_variance` override: `(mean - self._min) * (self._max - mean) /
(self._smoothness + 3.)`, where `m` is the value returned by the composed
distribution's own `mean()` accessor (an external collaborator, passed
explicitly). -/
def PERT.variance {α : Type} [Field α] (m : α) (p : PERT α) : α :=
  (m - p._min) * (p._max - m) / (p._smoothness + 3)

/-- The `_stddev` override: `tf.sqrt(self.variance(...))`, with `tf.sqrt`
the external square-root primitive passed explicitly. -/
def PERT.stddev {α : Type} [Field α] (sqrtFn : α → α) (m : α) (p : PERT α) : α :=
  sqrtFn (p.variance m)

/-- The three deferred assertions that `_parameter_control_dependencies`
may emit, identified by their failure messages: "Mode must be greater
than minimum.", "Maximum must be greater than mode.", "Smoothness
parameter must be positive.". -/
inductive Check where
  | modeGtMin
  | maxGtMode
  | smoothnessPos
deriving DecidableEq

/-- Which of the four stored parameters are mutable references
(`tensor_util.is_ref`). -/
structure RefFlags where
  modIsRef : Bool
  minIsRef : Bool
  maxIsRef : Bool
  smoothnessIsRef : Bool

/-- Shallow embedding of `PERT._parameter_control_dependencies(is_init)`:
returns the list of assertions emitted, reproducing the source's control
flow exactly — an early return when `validate_args` is off, then the
`mode > minimum` and `maximum > mode` assertions nested inside
`if is_init != is_ref(self._mod)` and guarded respectively by
`if is_init != is_ref(self._min)` and `if is_init != is_ref(self._max)`,
and finally the smoothness assertion guarded only by
`if is_init != is_ref(self._smoothness)`. -/
def parameterControlDependencies (validateArgs isInit : Bool) (r : RefFlags) :
    List Check :=
  if !validateArgs then []
  else
    (if isInit != r.modIsRef then
      (if isInit != r.minIsRef then [Check.modeGtMin] else []) ++
      (if isInit != r.maxIsRef then [Check.maxGtMode] else [])
    else []) ++
    (if isInit != r.smoothnessIsRef then [Check.smoothnessPos] else [])

/-- Whether a given assertion holds on concrete parameter values:
`assert_greater(self._mod, self._min)`, `assert_greater(self._max,
self._mod)`, `assert_positive(self._smoothness)`. -/
def checkPasses (mini mode maxi smoothness : ℚ) : Check → Bool
  | Check.modeGtMin => decide (mini < mode)
  | Check.maxGtMode => decide (mode < maxi)
  | Check.smoothnessPos => decide (0 < smoothness)

/-- The assertions among an emitted list that fail on concrete values;
every emitted assertion is evaluated (they are independent control
dependencies), so all failures are surfaced, not just the first. -/
def failedChecks (mini mode maxi smoothness : ℚ) (deps : List Check) :
    List Check :=
  deps.filter (fun c => ! checkPasses mini mode maxi smoothness c)

/-- Ref-flag configuration of an eager construction from plain numeric
values: no parameter is a mutable reference. -/
def allNonRef : RefFlags :=
  { modIsRef := false, minIsRef := false, maxIsRef := false,
    smoothnessIsRef := false }

/-- The spec's formula for `concentration1`, written as in the spec text:
`1 + smoothness*((mode-minimum)/(maximum-minimum))`. -/
def specConcentration1 {α : Type} [Field α] (mini mode maxi smoothness : α) : α :=
  1 + smoothness * ((mode - mini) / (maxi - mini))

/-- The spec's formula for `concentration0`, written as in the spec text:
`1 + smoothness*((maximum-mode)/(maximum-minimum))`. -/
def specConcentration0 {α : Type} [Field α] (mini mode maxi smoothness : α) : α :=
  1 + smoothness * ((maxi - mode) / (maxi - mini))

/-- Claim C1: for every construction (after dtype coercion), the derived
quantities equal the spec's formulas — `concentration1 =
1 + smoothness*(mode-minimum)/(maximum-minimum)`, `concentration0 =
1 + smoothness*(maximum-mode)/(maximum-minimum)`, `scale = maximum -
minimum`, `loc = minimum` — and they are functions of the parameters
computed at construction. -/
theorem construction_derived_quantities (mini mode maxi smoothness : ℚ) :
    (PERT.init mini mode maxi smoothness).concentration1
        = specConcentration1 mini mode maxi smoothness ∧
    (PERT.init mini mode maxi smoothness).concentration0
        = specConcentration0 mini mode maxi smoothness ∧
    (PERT.init mini mode maxi smoothness).scale = maxi - mini ∧
    (PERT.init mini mode maxi smoothness).loc = mini := by
  refine ⟨?_, ?_, rfl, rfl⟩ <;>
    simp [PERT.init, PERT.concentration1, PERT.concentration0,
      specConcentration1, specConcentration0, mul_div_assoc]

/-- Claim C2 divergence: with `validate_args` on, when `mode` is a
mutable reference and `minimum` a fixed value, the source's nested
gating emits no `mode > minimum` assertion at construction
(`is_init = True`) nor on later accesses (`is_init = False`), although
the claimed or-gating requires it to run at construction because the
fixed `minimum` changed there. -/
theorem mode_min_check_gating_divergence :
    Check.modeGtMin ∉ parameterControlDependencies true true
      { modIsRef := true, minIsRef := false, maxIsRef := false,
        smoothnessIsRef := false } ∧
    Check.modeGtMin ∉ parameterControlDependencies true false
      { modIsRef := true, minIsRef := false, maxIsRef := false,
        smoothnessIsRef := false } ∧
    ((true != true) || (true != false)) = true := by decide

/-- Claim C3: the three validation checks are independent — each
assertion's emission is a function of only its own parameters' ref
status (never of another check's gating), and on an eager construction
from plain values every violated invariant appears among the reported
failures, not just the first. -/
theorem validation_checks_independent (mini mode maxi smoothness : ℚ) :
    (∀ (isInit : Bool) (r : RefFlags),
      (Check.modeGtMin ∈ parameterControlDependencies true isInit r ↔
        ((isInit != r.modIsRef) && (isInit != r.minIsRef)) = true) ∧
      (Check.maxGtMode ∈ parameterControlDependencies true isInit r ↔
        ((isInit != r.modIsRef) && (isInit != r.maxIsRef)) = true) ∧
      (Check.smoothnessPos ∈ parameterControlDependencies true isInit r ↔
        (isInit != r.smoothnessIsRef) = true)) ∧
    ((Check.modeGtMin ∈ failedChecks mini mode maxi smoothness
        (parameterControlDependencies true true allNonRef) ↔ ¬ mini < mode) ∧
     (Check.maxGtMode ∈ failedChecks mini mode maxi smoothness
        (parameterControlDependencies true true allNonRef) ↔ ¬ mode < maxi) ∧
     (Check.smoothnessPos ∈ failedChecks mini mode maxi smoothness
        (parameterControlDependencies true true allNonRef) ↔
          ¬ 0 < smoothness)) := by
  constructor
  · intro isInit r
    rcases r with ⟨a, b, c, d⟩
    revert isInit
    cases a <;> cases b <;> cases c <;> cases d <;> decide
  · refine ⟨?_, ?_, ?_⟩ <;>
      simp [failedChecks, parameterControlDependencies, allNonRef,
        checkPasses, List.mem_filter]

/-- Claim C4: for every constructed distribution and input value,
`survival_function(value)` equals `1 - cdf(value)`, with `cdf` the
composed affine-transformed-Beta distribution's cdf; equivalently the
two always sum to 1. -/
theorem survival_function_complements_cdf (betaCdf : ℚ → ℚ → ℚ → ℚ)
    (p : PERT ℚ) (value : ℚ) :
    p.survivalFunction betaCdf value = 1 - p.cdf betaCdf value ∧
    p.survivalFunction betaCdf value + p.cdf betaCdf value = 1 := by
  refine ⟨rfl, ?_⟩
  simp [PERT.survivalFunction]

/-- Claim C5: `standard_deviation()` equals the square root of
`variance()` — it is `tf.sqrt` applied to the variance, so whenever the
variance is nonnegative its square recovers the variance and it is
itself nonnegative. -/
theorem stddev_is_sqrt_of_variance (p : PERT ℝ) (m : ℝ)
    (h : 0 ≤ p.variance m) :
    p.stddev Real.sqrt m = Real.sqrt (p.variance m) ∧
    (p.stddev Real.sqrt m) ^ 2 = p.variance m ∧
    0 ≤ p.stddev Real.sqrt m := by
  refine ⟨rfl, ?_, ?_⟩
  · simpa [PERT.stddev] using Real.sq_sqrt h
  · exact Real.sqrt_nonneg (p.variance m)

/-- Witness for C5 at the standard case `minimum=1, mode=7, maximum=11,
smoothness=4` with the composed distribution's mean `m = 20/3`. -/
theorem stddev_is_sqrt_of_variance_witness :
    (0 : ℝ) ≤ (PERT.init (1 : ℝ) 7 11 4).variance (20 / 3) ∧
    ((PERT.init (1 : ℝ) 7 11 4).stddev Real.sqrt (20 / 3)) ^ 2
      = (PERT.init (1 : ℝ) 7 11 4).variance (20 / 3) := by
  have h : (0 : ℝ) ≤ (PERT.init (1 : ℝ) 7 11 4).variance (20 / 3) := by
    norm_num [PERT.variance, PERT.init]
  exact ⟨h, (stddev_is_sqrt_of_variance (PERT.init (1 : ℝ) 7 11 4)
    (20 / 3) h).2.1⟩

/-- Claim C6: `variance()` equals
`(m - minimum) * (maximum - m) / (smoothness + 3)` where `m` is the
value returned by the composed distribution's own `mean()` accessor. -/
theorem variance_formula (p : PERT ℚ) (m : ℚ) :
    p.variance m = (m - p.minimum) * (p.maximum - m) / (p.smoothness + 3) :=
  rfl

/-- Claim C7: `mode()` returns exactly the mode value supplied at
construction — the stored parameter `self._mod` itself, not a value
re-derived from the Beta distribution. -/
theorem mode_roundtrip (mini mode maxi smoothness : ℚ) :
    (PERT.init mini mode maxi smoothness).mode = mode ∧
    (PERT.init mini mode maxi smoothness).mode
      = (PERT.init mini mode maxi smoothness)._mod :=
  ⟨rfl, rfl⟩

/-- Claim C8: whenever `minimum < mode < maximum` and `smoothness > 0`,
both derived concentrations are strictly greater than 1. -/
theorem concentrations_exceed_one (mini mode maxi smoothness : ℚ)
    (h1 : mini < mode) (h2 : mode < maxi) (hs : 0 < smoothness) :
    1 < (PERT.init mini mode maxi smoothness).concentration1 ∧
    1 < (PERT.init mini mode maxi smoothness).concentration0 := by
  have hd : 0 < maxi - mini := by linarith
  constructor
  · have hpos : 0 < smoothness * (mode - mini) / (maxi - mini) :=
      div_pos (mul_pos hs (by linarith)) hd
    have : (PERT.init mini mode maxi smoothness).concentration1
        = 1 + smoothness * (mode - mini) / (maxi - mini) := rfl
    rw [this]
    linarith
  · have hpos : 0 < smoothness * (maxi - mode) / (maxi - mini) :=
      div_pos (mul_pos hs (by linarith)) hd
    have : (PERT.init mini mode maxi smoothness).concentration0
        = 1 + smoothness * (maxi - mode) / (maxi - mini) := rfl
    rw [this]
    linarith

/-- Witness for C8 at `minimum=1, mode=7, maximum=11, smoothness=4`. -/
theorem concentrations_exceed_one_witness :
    (1 : ℚ) < 7 ∧ (7 : ℚ) < 11 ∧ (0 : ℚ) < 4 ∧
    (1 < (PERT.init (1 : ℚ) 7 11 4).concentration1 ∧
     1 < (PERT.init (1 : ℚ) 7 11 4).concentration0) :=
  ⟨by norm_num, by norm_num, by norm_num,
    concentrations_exceed_one 1 7 11 4 (by norm_num) (by norm_num)
      (by norm_num)⟩

/-- Claim C9: for `minimum=1, mode=7, maximum=11, smoothness=4`,
construction yields `concentration1 = 3.4`, `concentration0 = 2.6`,
`scale = 10`, `loc = 1`. -/
theorem standard_case_values :
    (PERT.init (1 : ℚ) 7 11 4).concentration1 = 3.4 ∧
    (PERT.init (1 : ℚ) 7 11 4).concentration0 = 2.6 ∧
    (PERT.init (1 : ℚ) 7 11 4).scale = 10 ∧
    (PERT.init (1 : ℚ) 7 11 4).loc = 1 := by
  refine ⟨?_, ?_, ?_, ?_⟩ <;>
    norm_num [PERT.init, PERT.concentration1, PERT.concentration0,
      PERT.scale, PERT.loc]

/-- Claim C10: whenever `maximum ≠ minimum`, the derived concentrations
satisfy `concentration1 + concentration0 = 2 + smoothness`, so
`smoothness` is exactly recoverable from the two concentrations. -/
theorem concentrations_sum (mini mode maxi smoothness : ℚ)
    (h : maxi ≠ mini) :
    (PERT.init mini mode maxi smoothness).concentration1
      + (PERT.init mini mode maxi smoothness).concentration0
      = 2 + smoothness ∧
    smoothness = (PERT.init mini mode maxi smoothness).concentration1
      + (PERT.init mini mode maxi smoothness).concentration0 - 2 := by
  have hd : maxi - mini ≠ 0 := sub_ne_zero.mpr h
  have key : (PERT.init mini mode maxi smoothness).concentration1
      + (PERT.init mini mode maxi smoothness).concentration0
      = 2 + smoothness := by
    show (1 + smoothness * (mode - mini) / (maxi - mini))
      + (1 + smoothness * (maxi - mode) / (maxi - mini)) = 2 + smoothness
    field_simp
    ring
  exact ⟨key, by linarith⟩

/-- Witness for C10 at `minimum=1, mode=7, maximum=11, smoothness=4`. -/
theorem concentrations_sum_witness :
    (11 : ℚ) ≠ 1 ∧
    (PERT.init (1 : ℚ) 7 11 4).concentration1
      + (PERT.init (1 : ℚ) 7 11 4).concentration0 = 2 + 4 :=
  ⟨by norm_num, (concentrations_sum 1 7 11 4 (by norm_num)).1⟩

end PERTSpec
